import Mathlib

/-!
Verification of the typed JSON-RPC marshalling layer of python-bitcoinlib
(zcash fork): chain-parameter selection (src/zcash/__init__.py), the JSON-RPC
error taxonomy, response handling, port resolution and the typed RPC method
decoders (src/zcash/rpc.py).

Conventions of the shallow embedding:
* Python byte strings are `List Nat` (one entry per byte).
* JSON numbers decoded by BaseProxy._get_response are exact rationals, because
  the decoder is invoked with parse_float set to decimal.Decimal, which parses
  a decimal literal with arbitrary precision.
* Python dicts are association lists `List (String × JVal)` with unique keys.
* Raising an exception is modelled with `Except`.
* Machine integers do not overflow in any of the modelled code paths (Python
  integers are unbounded), so ports and amounts are `Nat` / `Int` / `Rat`.
-/

set_option maxRecDepth 4000

/-- Modelled from the spec: zcash.core.COIN, the fixed smallest-unit scale
factor of the coin (the "satoshi-equivalent" subdivision of the glossary,
10^8 smallest units per display unit). zcash.core itself is an external
collaborator that is not part of the sources under verification. -/
def COIN : Int := 100000000

/-- Truncation toward zero, the semantics of the Python builtin int() applied
to a Decimal or float value. -/
def ratTrunc (q : ℚ) : Int := if 0 ≤ q then ⌊q⌋ else ⌈q⌉

/-! ## Error taxonomy (src/zcash/rpc.py lines 63-116) -/

/-- A wire rpc_error object: the code and message fields of the error member
of a JSON-RPC response. -/
structure RpcError where
  code : Int
  message : String
  deriving DecidableEq

/-- The set of JSONRPCError classes: the base class (generic) and its seven
registered subclasses (rpc.py lines 90-116). -/
inductive RPCErrKind where
  | generic
  | forbiddenBySafeMode
  | invalidAddressOrKey
  | invalidParameter
  | verify
  | verifyRejected
  | verifyAlreadyInChain
  | inWarmup
  deriving DecidableEq

/-- The SUBCLS_BY_CODE table, in registration order: each register_subcls
decorator (rpc.py lines 90-116) adds the pair (RPC_ERROR_CODE, subclass). -/
def SUBCLS_BY_CODE : List (Int × RPCErrKind) :=
  [(-2, RPCErrKind.forbiddenBySafeMode),
   (-5, RPCErrKind.invalidAddressOrKey),
   (-8, RPCErrKind.invalidParameter),
   (-25, RPCErrKind.verify),
   (-26, RPCErrKind.verifyRejected),
   (-27, RPCErrKind.verifyAlreadyInChain),
   (-28, RPCErrKind.inWarmup)]

/-- Dictionary lookup with a default, as in
SUBCLS_BY_CODE.get(rpc_error[code], cls) where cls is the base class
(rpc.py line 79). -/
def lookupSubcls : List (Int × RPCErrKind) → Int → RPCErrKind
  | [], _ => RPCErrKind.generic
  | (k, v) :: rest, c => if c = k then v else lookupSubcls rest c

/-- The constructed exception object: its dynamic class and its error
attribute. -/
structure JSONRPCErrorM where
  kind : RPCErrKind
  error : RpcError
  deriving DecidableEq

/-- JSONRPCError.__new__ (rpc.py lines 77-88): picks the subclass registered
for the numeric code, defaulting to the base class, and stores the original
rpc_error dict in the error attribute. -/
def mkJSONRPCError (e : RpcError) : JSONRPCErrorM :=
  { kind := lookupSubcls SUBCLS_BY_CODE e.code, error := e }

/-! ## Chain parameters (src/zcash/__init__.py) -/

/-- The BASE58_PREFIXES table of a params class: byte-string prefixes for
pubkey and script addresses and the integer secret-key prefix. -/
structure Base58Prefixes where
  PUBKEY_ADDR : List Nat
  SCRIPT_ADDR : List Nat
  SECRET_KEY : Nat
  deriving DecidableEq

/-- The fields of a chain-params class that the claims are about.  The
DNS_SEEDS field and the members inherited from the zcash.core base classes
are not needed by any claim and are omitted. -/
structure ChainParamsM where
  MESSAGE_START : List Nat
  DEFAULT_PORT : Nat
  RPC_PORT : Nat
  BASE58_PREFIXES : Base58Prefixes
  deriving DecidableEq

/-- MainParams (src/zcash/__init__.py lines 21-30). -/
def MainParams : ChainParamsM :=
  { MESSAGE_START := [0x24, 0xe9, 0x27, 0x64]
    DEFAULT_PORT := 8233
    RPC_PORT := 8232
    BASE58_PREFIXES :=
      { PUBKEY_ADDR := [0x1c, 0xb8]
        SCRIPT_ADDR := [0x1c, 0xbd]
        SECRET_KEY := 128 } }

/-- TestNetParams (src/zcash/__init__.py lines 33-40). -/
def TestNetParams : ChainParamsM :=
  { MESSAGE_START := [0xfa, 0x1a, 0xf9, 0xbf]
    DEFAULT_PORT := 18233
    RPC_PORT := 18232
    BASE58_PREFIXES :=
      { PUBKEY_ADDR := [0x1d, 0x25]
        SCRIPT_ADDR := [0x1c, 0xba]
        SECRET_KEY := 239 } }

/-- RegTestParams (src/zcash/__init__.py lines 42-49). -/
def RegTestParams : ChainParamsM :=
  { MESSAGE_START := [0xaa, 0xea, 0x3f, 0x5f]
    DEFAULT_PORT := 18444
    RPC_PORT := 18232
    BASE58_PREFIXES :=
      { PUBKEY_ADDR := [0x1d, 0x25]
        SCRIPT_ADDR := [0x1c, 0xba]
        SECRET_KEY := 239 } }

/-- Modelled from the spec: zcash.core._SelectCoreParams, called by
SelectParams before any assignment (src/zcash/__init__.py line 67).
zcash.core is not part of the sources under verification; per the spec the
selection operation accepts exactly the three profile names and fails for any
other value.  It assigns only the core-params global inside zcash.core, never
the zcash.params global, so for the claims about zcash.params only its
success or failure matters. -/
def selectCoreParamsOk (name : String) : Bool :=
  name = "mainnet" || name = "testnet" || name = "regtest"

/-- SelectParams (src/zcash/__init__.py lines 59-75), as a function from the
profile name to either the new value of the zcash.params global or the raised
error.  The call into zcash.core._SelectCoreParams happens first; for an
unknown name an error is raised there, and otherwise again in the final else
branch (line 75), in both cases before any assignment to params. -/
def SelectParamsM (name : String) : Except String ChainParamsM :=
  if selectCoreParamsOk name then
    if name = "mainnet" then Except.ok MainParams
    else if name = "testnet" then Except.ok TestNetParams
    else if name = "regtest" then Except.ok RegTestParams
    else Except.error ("Unknown chain " ++ name)
  else Except.error ("Unknown chain " ++ name)

/-- The effect of calling SelectParams on the process-wide params global:
on success the global is replaced by the selected profile, on a raised error
it keeps its previous value (the raise happens before any assignment). -/
def runSelectParams (name : String) (params : ChainParamsM) : ChainParamsM :=
  match SelectParamsM name with
  | Except.ok p => p
  | Except.error _ => params

/-! ## Port resolution in BaseProxy.__init__ (src/zcash/rpc.py lines 123-168) -/

/-- The port-selection slice of BaseProxy.__init__ for the service_url=None
path, returning the rpcport value placed into the service URL:
line 134 overwrites the service_port argument with the literal 18232 (its
comment reads: this line is only good for regtest); lines 157-158 replace a
missing service_port with zcash.params.RPC_PORT; line 159 takes the rpcport
key of the parsed configuration file, defaulting to service_port. -/
def baseProxyPort (servicePortArg : Option Nat) (confRpcport : Option Nat)
    (paramsRpcPort : Nat) : Nat :=
  -- line 134: service_port = 18232, discarding the constructor argument
  let servicePort : Option Nat := some 18232
  -- lines 157-158: if service_port is None, use zcash.params.RPC_PORT
  let servicePort : Option Nat :=
    match servicePort with
    | none => some paramsRpcPort
    | some p => some p
  -- line 159: conf rpcport if present, else service_port (an int by now)
  match confRpcport with
  | some p => p
  | none =>
    match servicePort with
    | some p => p
    | none => paramsRpcPort

/-! ## JSON values and Python dicts -/

/-- A decoded JSON value, extended with the domain values that the typed
layer stores back into result dicts.  Numbers are exact rationals because
_get_response (rpc.py lines 224-231) decodes with parse_float set to
decimal.Decimal.  The constructors bytes, tx and txout model values of the
external-collaborator domain types: byte strings produced by the hex and
byte-order utilities, a CTransaction (kept as the raw bytes it was decoded
from, the binary decoder being a black box per the spec), and a CTxOut (an
integer
smallest-unit amount together with a script given by its raw bytes). -/
inductive JVal where
  | null : JVal
  | bool (b : Bool) : JVal
  | num (q : ℚ) : JVal
  | str (s : String) : JVal
  | arr (xs : List JVal) : JVal
  | obj (fields : List (String × JVal)) : JVal
  | bytes (bs : List Nat) : JVal
  | tx (raw : List Nat) : JVal
  | txout (nValue : Int) (scriptPubKey : List Nat) : JVal

/-- A decoded JSON object: an association list with unique keys, in
insertion order, as produced by json.loads. -/
abbrev Dict := List (String × JVal)

/-- Python dict lookup d[k] restricted to its successful case. -/
def dictGet : Dict → String → Option JVal
  | [], _ => none
  | (k0, v0) :: rest, k => if k0 = k then some v0 else dictGet rest k

/-- Python dict assignment d[k] = v: replaces the value of an existing key in
place, otherwise appends the new binding. -/
def dictSet : Dict → String → JVal → Dict
  | [], k, v => [(k, v)]
  | (k0, v0) :: rest, k, v =>
    if k0 = k then (k, v) :: rest else (k0, v0) :: dictSet rest k v

/-- Removal of a key from an association list (the successful case of the
Python statement del d[k]). -/
def dictDel : Dict → String → Dict
  | [], _ => []
  | (k0, v0) :: rest, k =>
    if k0 = k then dictDel rest k else (k0, v0) :: dictDel rest k

/-- The exceptions the modelled method bodies can raise. -/
inductive PyExc where
  | typeError
  | nameError (n : String)
  | keyError (k : String)
  | indexError (msg : String)
  deriving DecidableEq

/-- The Python statement del d[k]: KeyError when the key is absent. -/
def dictDelE (d : Dict) (k : String) : Except PyExc Dict :=
  match dictGet d k with
  | some _ => Except.ok (dictDel d k)
  | none => Except.error (PyExc.keyError k)

/-- Python dict subscription d[k]: KeyError when the key is absent. -/
def getVal (d : Dict) (k : String) : Except PyExc JVal :=
  match dictGet d k with
  | some v => Except.ok v
  | none => Except.error (PyExc.keyError k)

/-- Using a JSON value as a number: the modelled call sites multiply it by
COIN, which fails with a TypeError for non-numeric values. -/
def asNum : JVal → Except PyExc ℚ
  | JVal.num q => Except.ok q
  | _ => Except.error PyExc.typeError

/-- Using a JSON value as a string (hex-decoding call sites). -/
def asStr : JVal → Except PyExc String
  | JVal.str s => Except.ok s
  | _ => Except.error PyExc.typeError

/-- Using a JSON value as a nested object. -/
def asObj : JVal → Except PyExc Dict
  | JVal.obj d => Except.ok d
  | _ => Except.error PyExc.typeError

/-! ## Hex and byte-order utilities

binascii.unhexlify and the zcash.core helpers x and lx are external
collaborators (zcash.core is not under the verified sources); per the spec
they are the hex-to-bytes and big/little-endian byte-order conversion
utilities. -/

/-- The numeric value of one hex digit character (by its code point). -/
def hexDigitVal (c : Char) : Nat :=
  let n := c.toNat
  if 48 ≤ n ∧ n ≤ 57 then n - 48
  else if 97 ≤ n ∧ n ≤ 102 then n - 87
  else if 65 ≤ n ∧ n ≤ 70 then n - 55
  else 0

/-- Modelled from the spec: binascii.unhexlify on a list of hex digits,
two digits per output byte. -/
def unhexlifyL : List Char → List Nat
  | c1 :: c2 :: rest => (16 * hexDigitVal c1 + hexDigitVal c2) :: unhexlifyL rest
  | _ => []

/-- Modelled from the spec: the hex-to-bytes utility zcash.core.x. -/
def hexToBytes (s : String) : List Nat := unhexlifyL s.data

/-- Modelled from the spec: zcash.core.lx, hex decoding followed by the
byte-order reversal between wire display order and canonical byte order. -/
def lxM (s : String) : List Nat := (hexToBytes s).reverse

/-! ## Response handling in BaseProxy._call (src/zcash/rpc.py lines 191-211) -/

/-- A decoded JSON-RPC response as seen by _call.  Per the wire protocol a
response always carries the error field (possibly null), so the error
component is the null check performed by line 205; the result component is
none exactly when the response has no result key (the membership test of
line 207). -/
structure RpcResponseM where
  error : Option RpcError
  result : Option JVal

/-- The response-processing tail of BaseProxy._call (rpc.py lines 204-211):
a non-null error raises JSONRPCError of that error; an absent result key
raises the code -343 missing-result JSONRPCError; otherwise the result is
returned. -/
def callHandleResponse (resp : RpcResponseM) : Except JSONRPCErrorM JVal :=
  match resp.error with
  | some e => Except.error (mkJSONRPCError e)
  | none =>
    match resp.result with
    | some v => Except.ok v
    | none =>
      Except.error (mkJSONRPCError { code := -343, message := "missing JSON-RPC result" })

/-! ## listunspent amount decoding (src/zcash/rpc.py lines 575-597) -/

/-- The amount conversion applied to each listunspent entry (rpc.py line
595): the wire amount, an exact decimal thanks to the Decimal parse in
_get_response, is multiplied by COIN and truncated with int(). -/
def listunspentAmount (amount : ℚ) : Int := ratTrunc (amount * (COIN : ℚ))

/-- A rational is the value of a decimal literal: an integer divided by a
power of ten.  decimal.Decimal represents exactly these values. -/
def isDecimalValue (q : ℚ) : Prop := ∃ m : Int, ∃ k : Nat, q = (m : ℚ) / 10 ^ k

/-! ## Proxy.gettxout (src/zcash/rpc.py lines 541-558) -/

/-- The result processing of Proxy.gettxout: a null reply raises IndexError
(line 551); otherwise the reply dict gets a txout entry built from
int(value * COIN) and the hex-decoded script (lines 553-554), loses its raw
value and scriptPubKey entries (lines 555-556), and has its bestblock hex
string replaced by the byte-reversed hash (line 557). -/
def gettxoutProcess (reply : Option Dict) : Except PyExc Dict :=
  match reply with
  | none => Except.error (PyExc.indexError "unspent txout not found")
  | some r => do
    let v ← getVal r "value"
    let q ← asNum v
    let spkv ← getVal r "scriptPubKey"
    let spk ← asObj spkv
    let hv ← getVal spk "hex"
    let hs ← asStr hv
    let r1 := dictSet r "txout" (JVal.txout (ratTrunc (q * (COIN : ℚ))) (hexToBytes hs))
    let r2 ← dictDelE r1 "value"
    let r3 ← dictDelE r2 "scriptPubKey"
    let bbv ← getVal r3 "bestblock"
    let bbs ← asStr bbv
    pure (dictSet r3 "bestblock" (JVal.bytes (lxM bbs)))

/-! ## Proxy.getrawtransaction, verbose path (src/zcash/rpc.py lines 480-508) -/

/-- The verbose-mode result processing of Proxy.getrawtransaction (rpc.py
lines 496-504): the hex payload is decoded into a tx entry; line 498 is the
bare expression statement r subscripted by hex, which only reads the entry
and discards it (the sibling methods fundrawtransaction and
signrawtransaction instead delete the hex key at this point); the five
server-computed keys txid, version, locktime, vin and vout are deleted; and
blockhash is replaced by its byte-reversed hash when present, else None. -/
def getrawtransactionVerbose (r : Dict) : Except PyExc Dict := do
  let hv ← getVal r "hex"
  let hs ← asStr hv
  let r1 := dictSet r "tx" (JVal.tx (hexToBytes hs))
  let _ ← getVal r1 "hex"
  let r2 ← dictDelE r1 "txid"
  let r3 ← dictDelE r2 "version"
  let r4 ← dictDelE r3 "locktime"
  let r5 ← dictDelE r4 "vin"
  let r6 ← dictDelE r5 "vout"
  match dictGet r6 "blockhash" with
  | some bv => do
    let bs ← asStr bv
    pure (dictSet r6 "blockhash" (JVal.bytes (lxM bs)))
  | none => pure (dictSet r6 "blockhash" JVal.null)

/-! ## The z-address methods defined without self (src/zcash/rpc.py 678-743)

The six methods z_exportkey, z_exportwallet, z_getbalance, z_importkey,
z_importwallet and z_listoperationids are defined inside class Proxy without
a self parameter, while their bodies start by evaluating self subscripted
with _call.  Calling one of them therefore either fails to bind the
arguments (TypeError) or fails to resolve the name self (NameError), and the
transport is never reached. -/

/-- The module-level names of src/zcash/rpc.py, against which a name that is
not a local is resolved (imports of lines 27-49 and the definitions of lines
51-116 and 119-271).  The name self is not among them, nor is it a
builtin. -/
def rpcModuleGlobals : List String :=
  ["ssl", "httplib", "base64", "binascii", "decimal", "json", "os",
   "platform", "sys", "urlparse", "zcash", "COIN", "x", "lx", "b2lx",
   "CBlock", "CBlockHeader", "CTransaction", "COutPoint", "CTxOut",
   "CScript", "CBitcoinAddress", "CBitcoinSecret", "DEFAULT_USER_AGENT",
   "DEFAULT_HTTP_TIMEOUT", "unhexlify", "hexlify", "JSONRPCError",
   "ForbiddenBySafeModeError", "InvalidAddressOrKeyError",
   "InvalidParameterError", "VerifyError", "VerifyRejectedError",
   "VerifyAlreadyInChainError", "InWarmupError", "BaseProxy", "RawProxy",
   "Proxy"]

/-- A CPython bound-method call with nargs positional arguments on a method
whose declared positional parameters are params, of which the last ndefaults
have default values: the receiver is prepended to the arguments, and binding
succeeds exactly when the count of supplied values lies between the count of
required parameters and the count of all parameters; on a binding failure a
TypeError is raised.  On success the method body runs; each modelled body
consists of a call self._call(...), whose evaluation first resolves the name
self against the bound parameters and then the module globals, raising
NameError when both fail.  The second component of the outcome is the list
of RPC requests issued to the transport. -/
def invokeZMethod (params : List String) (ndefaults : Nat) (rpcName : String)
    (nargs : Nat) : Except PyExc Unit × List String :=
  if params.length - ndefaults ≤ nargs + 1 ∧ nargs + 1 ≤ params.length then
    if "self" ∈ params ∨ "self" ∈ rpcModuleGlobals then
      (Except.ok (), [rpcName])
    else
      (Except.error (PyExc.nameError "self"), [])
  else
    (Except.error PyExc.typeError, [])

/-- Proxy.z_exportkey (rpc.py lines 680-685): def z_exportkey(zaddr). -/
def z_exportkey (nargs : Nat) : Except PyExc Unit × List String :=
  invokeZMethod ["zaddr"] 0 "z_exportkey" nargs

/-- Proxy.z_exportwallet (rpc.py lines 687-690): def z_exportwallet(filename). -/
def z_exportwallet (nargs : Nat) : Except PyExc Unit × List String :=
  invokeZMethod ["filename"] 0 "z_exportwallet" nargs

/-- Proxy.z_getbalance (rpc.py lines 692-694): def z_getbalance(zaddr, minconf=1). -/
def z_getbalance (nargs : Nat) : Except PyExc Unit × List String :=
  invokeZMethod ["zaddr", "minconf"] 1 "z_getbalance" nargs

/-- Proxy.z_importkey (rpc.py lines 719-726):
def z_importkey(zkey, rescan, startHeight) with two defaults. -/
def z_importkey (nargs : Nat) : Except PyExc Unit × List String :=
  invokeZMethod ["zkey", "rescan", "startHeight"] 2 "z_importkey" nargs

/-- Proxy.z_importwallet (rpc.py lines 728-733): def z_importwallet(filename). -/
def z_importwallet (nargs : Nat) : Except PyExc Unit × List String :=
  invokeZMethod ["filename"] 0 "z_importwallet" nargs

/-- Proxy.z_listoperationids (rpc.py lines 739-743):
def z_listoperationids() with no parameters at all. -/
def z_listoperationids (nargs : Nat) : Except PyExc Unit × List String :=
  invokeZMethod [] 0 "z_listoperationids" nargs

/-! ## Binary floating point model for the sendtoaddress encode direction

sendtoaddress (rpc.py lines 628-633) computes float(amount)/COIN: the
integer amount is converted to an IEEE-754 binary64 value and divided by the
float conversion of COIN, each step rounding its exact result to the nearest
representable binary64 value with ties to even.  Binary64 values in the
normal range are the dyadic rationals with a 53-bit significand; the model
below implements correct rounding of a rational to 53 significant binary
digits and leaves the exponent unbounded, which coincides with binary64
arithmetic on the magnitudes any currency amount can take. -/

/-- Rounding a rational to the nearest integer with ties to even. -/
def roundHalfEven (q : ℚ) : Int :=
  let f := ⌊q⌋
  if q - f < 1 / 2 then f
  else if q - f > 1 / 2 then f + 1
  else if f % 2 = 0 then f else f + 1

/-- The binary exponent of a nonzero rational: the unique e with
2 ^ e ≤ |q| < 2 ^ (e + 1), computed from the bit lengths of numerator and
denominator. -/
def ratExp2 (q : ℚ) : Int :=
  let ln : Int := Nat.log2 q.num.natAbs
  let ld : Int := Nat.log2 q.den
  if (2 : ℚ) ^ (ln - ld) ≤ |q| then ln - ld else ln - ld - 1

/-- Correctly rounded conversion of a rational to an IEEE-754 binary64 value
(round to nearest, ties to even), with the value of the result kept as a
rational: the significand is scaled to the 53-bit window determined by the
binary exponent and rounded half-to-even. -/
def roundDouble (q : ℚ) : ℚ :=
  if q = 0 then 0
  else
    let e := ratExp2 q
    ((if 0 < q then 1 else -1) : ℚ) *
      (roundHalfEven (|q| * (2 : ℚ) ^ (52 - e)) : ℚ) * (2 : ℚ) ^ (e - 52)

/-- The wire amount computed by Proxy.sendtoaddress (rpc.py line 631):
float(amount)/COIN, the float conversion of the integer smallest-unit
amount divided (in binary64 arithmetic) by the float conversion of COIN. -/
def sendtoaddressWireAmount (amount : Int) : ℚ :=
  roundDouble (roundDouble (amount : ℚ) / roundDouble ((COIN : Int) : ℚ))

/-- The full currency round trip of the claim: a wire decimal amount decoded
by listunspent to integer smallest units, then encoded back to a wire amount
by sendtoaddress. -/
def amountRoundTrip (d : ℚ) : ℚ := sendtoaddressWireAmount (listunspentAmount d)

/-- A rational is dyadic when it is an integer multiple of an integer power
of two; every binary64 value is dyadic. -/
def IsDyadic (q : ℚ) : Prop := ∃ m : Int, ∃ k : Int, q = (m : ℚ) * (2 : ℚ) ^ k

/-! ## Helper lemmas about dictionaries -/

theorem dictGet_dictSet_self (d : Dict) (k : String) (v : JVal) :
    dictGet (dictSet d k v) k = some v := by
  induction d with
  | nil => simp [dictSet, dictGet]
  | cons hd tl ih =>
    obtain ⟨k0, v0⟩ := hd
    by_cases h : k0 = k
    · simp [dictSet, h, dictGet]
    · simp [dictSet, h, dictGet, ih]

theorem dictGet_dictSet_ne (d : Dict) (k : String) (v : JVal) (k' : String)
    (h : k' ≠ k) : dictGet (dictSet d k v) k' = dictGet d k' := by
  induction d with
  | nil => simp [dictSet, dictGet, Ne.symm h]
  | cons hd tl ih =>
    obtain ⟨k0, v0⟩ := hd
    by_cases h0 : k0 = k
    · subst h0
      simp [dictSet, dictGet, Ne.symm h]
    · simp only [dictSet, if_neg h0, dictGet, ih]

theorem dictGet_dictDel_self (d : Dict) (k : String) :
    dictGet (dictDel d k) k = none := by
  induction d with
  | nil => simp [dictDel, dictGet]
  | cons hd tl ih =>
    obtain ⟨k0, v0⟩ := hd
    by_cases h0 : k0 = k
    · simp [dictDel, h0, ih]
    · simp [dictDel, h0, dictGet, ih]

theorem dictGet_dictDel_ne (d : Dict) (k k' : String) (h : k' ≠ k) :
    dictGet (dictDel d k) k' = dictGet d k' := by
  induction d with
  | nil => simp [dictDel]
  | cons hd tl ih =>
    obtain ⟨k0, v0⟩ := hd
    by_cases h0 : k0 = k
    · subst h0
      simp [dictDel, dictGet, Ne.symm h, ih]
    · simp only [dictDel, if_neg h0, dictGet, ih]

/-! ## Helper lemmas about the binary64 model -/

/-- Every rounded binary64 value is a dyadic rational. -/
theorem roundDouble_isDyadic (q : ℚ) : IsDyadic (roundDouble q) := by
  unfold roundDouble
  by_cases h0 : q = 0
  · exact ⟨0, 0, by simp [h0]⟩
  · refine ⟨(if 0 < q then 1 else -1) *
      roundHalfEven (|q| * (2 : ℚ) ^ (52 - ratExp2 q)), ratExp2 q - 52, ?_⟩
    rw [if_neg h0]
    push_cast
    by_cases hq : 0 < q
    · simp [hq]
    · simp [hq]

/-- The rational 11/10 is not dyadic: ten has the odd prime factor five. -/
theorem elevenTenths_not_dyadic : ¬ IsDyadic (11 / 10 : ℚ) := by
  rintro ⟨m, k, hk⟩
  rcases le_or_lt 0 k with hk0 | hk0
  · -- nonnegative exponent: 11/10 would be an integer multiple of 2 ^ k
    lift k to ℕ using hk0
    rw [zpow_natCast] at hk
    have h10 : (11 : ℚ) = 10 * (m * 2 ^ k) := by
      field_simp at hk
      linarith [hk]
    have hz : (11 : Int) = 10 * (m * 2 ^ k) := by exact_mod_cast h10
    omega
  · -- negative exponent: 10 * m = 11 * 2 ^ j forces 5 to divide a power of 2
    set j : ℕ := (-k).toNat with hj
    have hkj : k = -(j : Int) := by omega
    rw [hkj, zpow_neg, zpow_natCast] at hk
    have h2 : (0 : ℚ) < 2 ^ j := by positivity
    have h10 : (10 : ℚ) * m = 11 * 2 ^ j := by
      field_simp at hk
      linarith [hk]
    have hz : (10 : Int) * m = 11 * 2 ^ j := by exact_mod_cast h10
    have h5 : (5 : Int) ∣ 11 * 2 ^ j := ⟨2 * m, by linarith⟩
    have hp : Prime (5 : Int) := Int.prime_iff_natAbs_prime.mpr (by norm_num)
    rcases hp.dvd_mul.mp h5 with h | h
    · omega
    · have := hp.dvd_of_dvd_pow h
      omega

/-! ## Claim theorems -/

/-- C2: constructing JSONRPCError from any rpc_error dict yields the subclass
registered for the codes -2, -5, -8, -25, -26, -27 and -28, the generic base
class for every other code, and in all cases the error attribute keeps the
original code and message verbatim. -/
theorem jsonrpcError_code_mapping (c : Int) (msg : String) :
    (mkJSONRPCError { code := c, message := msg }).error =
      { code := c, message := msg } ∧
    (mkJSONRPCError { code := c, message := msg }).kind =
      (if c = -2 then RPCErrKind.forbiddenBySafeMode
       else if c = -5 then RPCErrKind.invalidAddressOrKey
       else if c = -8 then RPCErrKind.invalidParameter
       else if c = -25 then RPCErrKind.verify
       else if c = -26 then RPCErrKind.verifyRejected
       else if c = -27 then RPCErrKind.verifyAlreadyInChain
       else if c = -28 then RPCErrKind.inWarmup
       else RPCErrKind.generic) :=
  ⟨rfl, rfl⟩

/-- C3: for each of the three supported profile names, SelectParams replaces
the params global with the corresponding profile instance, whose table
constants match the fixed table of the source: DEFAULT_PORT 8233, 18233 and
18444, RPC_PORT 8232, 18232 and 18232, and the per-profile MESSAGE_START and
BASE58_PREFIXES values. -/
theorem selectParams_profile_table (st : ChainParamsM) :
    (runSelectParams "mainnet" st = MainParams ∧
     runSelectParams "testnet" st = TestNetParams ∧
     runSelectParams "regtest" st = RegTestParams) ∧
    (MainParams.DEFAULT_PORT = 8233 ∧ TestNetParams.DEFAULT_PORT = 18233 ∧
     RegTestParams.DEFAULT_PORT = 18444) ∧
    (MainParams.RPC_PORT = 8232 ∧ TestNetParams.RPC_PORT = 18232 ∧
     RegTestParams.RPC_PORT = 18232) ∧
    (MainParams.MESSAGE_START = [0x24, 0xe9, 0x27, 0x64] ∧
     TestNetParams.MESSAGE_START = [0xfa, 0x1a, 0xf9, 0xbf] ∧
     RegTestParams.MESSAGE_START = [0xaa, 0xea, 0x3f, 0x5f]) ∧
    (MainParams.BASE58_PREFIXES = ⟨[0x1c, 0xb8], [0x1c, 0xbd], 128⟩ ∧
     TestNetParams.BASE58_PREFIXES = ⟨[0x1d, 0x25], [0x1c, 0xba], 239⟩ ∧
     RegTestParams.BASE58_PREFIXES = ⟨[0x1d, 0x25], [0x1c, 0xba], 239⟩) :=
  ⟨⟨rfl, rfl, rfl⟩, ⟨rfl, rfl, rfl⟩, ⟨rfl, rfl, rfl⟩, ⟨rfl, rfl, rfl⟩,
   ⟨rfl, rfl, rfl⟩⟩

/-- C4: for any name other than the three supported ones, SelectParams raises
and the params global keeps its previous value. -/
theorem selectParams_unknown_name (name : String) (st : ChainParamsM)
    (h1 : name ≠ "mainnet") (h2 : name ≠ "testnet") (h3 : name ≠ "regtest") :
    runSelectParams name st = st ∧
    ∃ e, SelectParamsM name = Except.error e := by
  have hok : selectCoreParamsOk name = false := by
    simp [selectCoreParamsOk, h1, h2, h3]
  exact ⟨by simp [runSelectParams, SelectParamsM, hok],
         ⟨"Unknown chain " ++ name, by simp [SelectParamsM, hok]⟩⟩

/-- Witness for C4 at the concrete unknown name florp. -/
theorem selectParams_unknown_name_witness :
    (("florp" : String) ≠ "mainnet" ∧ ("florp" : String) ≠ "testnet" ∧
     ("florp" : String) ≠ "regtest") ∧
    (runSelectParams "florp" MainParams = MainParams ∧
     ∃ e, SelectParamsM "florp" = Except.error e) :=
  ⟨⟨by decide, by decide, by decide⟩,
   selectParams_unknown_name "florp" MainParams (by decide) (by decide)
     (by decide)⟩

/-- C5 (code bug): with no config rpcport, BaseProxy uses the literal 18232
from rpc.py line 134 no matter what service_port was passed and no matter the
active chain profile, while the mainnet profile RPC_PORT the claim (and the
Proxy docstring) prescribe is 8232. -/
theorem baseProxyPort_hardcoded :
    (∀ (arg : Option Nat) (p : Nat), baseProxyPort arg none p = 18232) ∧
    MainParams.RPC_PORT = 8232 :=
  ⟨fun _ _ => rfl, rfl⟩

/-- C1: for a wire amount that is a decimal value exactly representable in
the coin subdivision, the listunspent conversion int(amount * COIN) yields
exactly the amount scaled by COIN, with no rounding loss, because the wire
amount reaches the conversion as an exact Decimal. -/
theorem listunspent_amount_exact (d : ℚ) (hdec : isDecimalValue d)
    (hrep : (d * (COIN : ℚ)).den = 1) :
    (listunspentAmount d : ℚ) = d * (COIN : ℚ) := by
  have hq : (((d * (COIN : ℚ)).num : Int) : ℚ) = d * (COIN : ℚ) :=
    (Rat.den_eq_one_iff _).mp hrep
  unfold listunspentAmount ratTrunc
  by_cases h : 0 ≤ d * (COIN : ℚ)
  · rw [if_pos h, ← hq, Int.floor_intCast]
  · rw [if_neg h, ← hq, Int.ceil_intCast]

/-- Witness for C1 at the wire amount 0.0005 of the spec example:
0.0005 is the decimal 5 * 10 ^ (-4), is exactly representable (its product
with COIN has denominator one), and decodes to exactly 0.0005 * COIN. -/
theorem listunspent_amount_exact_witness :
    isDecimalValue (1 / 2000 : ℚ) ∧ ((1 / 2000 : ℚ) * (COIN : ℚ)).den = 1 ∧
    (listunspentAmount (1 / 2000 : ℚ) : ℚ) = (1 / 2000 : ℚ) * (COIN : ℚ) := by
  have hden : ((1 / 2000 : ℚ) * (COIN : ℚ)).den = 1 := by
    have h : (1 / 2000 : ℚ) * (COIN : ℚ) = ((50000 : Int) : ℚ) := by
      norm_num [COIN]
    rw [h, Rat.den_intCast]
  exact ⟨⟨5, 4, by norm_num⟩, hden,
    listunspent_amount_exact (1 / 2000) ⟨5, 4, by norm_num⟩ hden⟩

/-- C6: _call raises the taxonomy error whenever the response error field is
non-null (and so never returns a result), and raises the code -343
missing-result JSONRPCError when the response has a null error and no result
member; the raised missing-result error carries code -343 and the message
"missing JSON-RPC result". -/
theorem call_response_error_handling (resp : RpcResponseM) :
    (∀ e, resp.error = some e →
      callHandleResponse resp = Except.error (mkJSONRPCError e)) ∧
    (resp.error = none → resp.result = none →
      callHandleResponse resp =
        Except.error
          (mkJSONRPCError { code := -343, message := "missing JSON-RPC result" }) ∧
      (mkJSONRPCError { code := -343, message := "missing JSON-RPC result" }).error =
        { code := -343, message := "missing JSON-RPC result" }) := by
  constructor
  · intro e he
    simp [callHandleResponse, he]
  · intro he hr
    exact ⟨by simp [callHandleResponse, he, hr], rfl⟩

/-- Witness for C6: a response with error code -5 raises the mapped error,
and a response with a null error and no result raises the missing-result
error. -/
theorem call_response_error_handling_witness :
    callHandleResponse { error := some { code := -5, message := "x" }, result := none } =
      Except.error (mkJSONRPCError { code := -5, message := "x" }) ∧
    callHandleResponse { error := none, result := none } =
      Except.error
        (mkJSONRPCError { code := -343, message := "missing JSON-RPC result" }) :=
  ⟨(call_response_error_handling _).1 _ rfl,
   ((call_response_error_handling _).2 rfl rfl).1⟩

/-- Any z-address method whose parameter list does not contain self raises on
every call: either argument binding fails with TypeError, or the body fails
to resolve the name self with NameError; in both cases no RPC request is
issued. -/
theorem invokeZMethod_raises (params : List String) (ndefaults : Nat)
    (rpcName : String) (nargs : Nat) (hp : "self" ∉ params)
    (hg : "self" ∉ rpcModuleGlobals) :
    (∃ e, (invokeZMethod params ndefaults rpcName nargs).1 = Except.error e) ∧
    (invokeZMethod params ndefaults rpcName nargs).2 = [] := by
  unfold invokeZMethod
  split
  · rw [if_neg (not_or.mpr ⟨hp, hg⟩)]
    exact ⟨⟨PyExc.nameError "self", rfl⟩, rfl⟩
  · exact ⟨⟨PyExc.typeError, rfl⟩, rfl⟩

/-- C10: each of the six z-address methods defined without a self parameter
raises an exception for every count of supplied arguments, and never issues
an RPC request to the transport. -/
theorem z_methods_always_raise (nargs : Nat) :
    ((∃ e, (z_exportkey nargs).1 = Except.error e) ∧ (z_exportkey nargs).2 = []) ∧
    ((∃ e, (z_exportwallet nargs).1 = Except.error e) ∧ (z_exportwallet nargs).2 = []) ∧
    ((∃ e, (z_getbalance nargs).1 = Except.error e) ∧ (z_getbalance nargs).2 = []) ∧
    ((∃ e, (z_importkey nargs).1 = Except.error e) ∧ (z_importkey nargs).2 = []) ∧
    ((∃ e, (z_importwallet nargs).1 = Except.error e) ∧ (z_importwallet nargs).2 = []) ∧
    ((∃ e, (z_listoperationids nargs).1 = Except.error e) ∧
      (z_listoperationids nargs).2 = []) :=
  ⟨invokeZMethod_raises _ _ _ _ (by decide) (by decide),
   invokeZMethod_raises _ _ _ _ (by decide) (by decide),
   invokeZMethod_raises _ _ _ _ (by decide) (by decide),
   invokeZMethod_raises _ _ _ _ (by decide) (by decide),
   invokeZMethod_raises _ _ _ _ (by decide) (by decide),
   invokeZMethod_raises _ _ _ _ (by decide) (by decide)⟩

/-- Reduction of a monadic bind on a successful Except value. -/
theorem exceptBindOk {ε α β : Type} (a : α) (f : α → Except ε β) :
    (Except.ok a >>= f) = f a := rfl

/-- Reduction of a functorial map on a successful Except value. -/
theorem exceptMapOk {ε α β : Type} (f : α → β) (a : α) :
    (f <$> (Except.ok a : Except ε α)) = Except.ok (f a) := rfl

/-- C7: gettxout raises IndexError on a null reply instead of returning it,
and on a non-null reply returns the dict extended with a txout entry built
from int(value * COIN) and the hex-decoded script, with the raw value and
scriptPubKey entries removed and bestblock byte-reversed. -/
theorem gettxout_null_and_decode :
    gettxoutProcess none =
      Except.error (PyExc.indexError "unspent txout not found") ∧
    ∀ (r : Dict) (q : ℚ) (spk : Dict) (hs bb : String),
      dictGet r "value" = some (JVal.num q) →
      dictGet r "scriptPubKey" = some (JVal.obj spk) →
      dictGet spk "hex" = some (JVal.str hs) →
      dictGet r "bestblock" = some (JVal.str bb) →
      ∃ out, gettxoutProcess (some r) = Except.ok out ∧
        dictGet out "txout" =
          some (JVal.txout (ratTrunc (q * (COIN : ℚ))) (hexToBytes hs)) ∧
        dictGet out "value" = none ∧
        dictGet out "scriptPubKey" = none ∧
        dictGet out "bestblock" = some (JVal.bytes (lxM bb)) := by
  refine ⟨rfl, ?_⟩
  intro r q spk hs bb hv hspk hhex hbb
  have g1 : dictGet (dictSet r "txout"
      (JVal.txout (ratTrunc (q * (COIN : ℚ))) (hexToBytes hs))) "value" =
      some (JVal.num q) := by
    rw [dictGet_dictSet_ne _ _ _ _ (by decide)]
    exact hv
  have g2 : dictGet (dictDel (dictSet r "txout"
      (JVal.txout (ratTrunc (q * (COIN : ℚ))) (hexToBytes hs))) "value")
      "scriptPubKey" = some (JVal.obj spk) := by
    rw [dictGet_dictDel_ne _ _ _ (by decide),
        dictGet_dictSet_ne _ _ _ _ (by decide)]
    exact hspk
  have g3 : dictGet (dictDel (dictDel (dictSet r "txout"
      (JVal.txout (ratTrunc (q * (COIN : ℚ))) (hexToBytes hs))) "value")
      "scriptPubKey") "bestblock" = some (JVal.str bb) := by
    rw [dictGet_dictDel_ne _ _ _ (by decide),
        dictGet_dictDel_ne _ _ _ (by decide),
        dictGet_dictSet_ne _ _ _ _ (by decide)]
    exact hbb
  refine ⟨dictSet (dictDel (dictDel (dictSet r "txout"
      (JVal.txout (ratTrunc (q * (COIN : ℚ))) (hexToBytes hs))) "value")
      "scriptPubKey") "bestblock" (JVal.bytes (lxM bb)), ?_, ?_, ?_, ?_, ?_⟩
  · simp [gettxoutProcess, getVal, hv, hspk, hhex, asNum, asObj, asStr,
      dictDelE, g1, g2, g3, exceptBindOk, exceptMapOk]
  · rw [dictGet_dictSet_ne _ _ _ _ (by decide),
        dictGet_dictDel_ne _ _ _ (by decide),
        dictGet_dictDel_ne _ _ _ (by decide),
        dictGet_dictSet_self]
  · rw [dictGet_dictSet_ne _ _ _ _ (by decide),
        dictGet_dictDel_ne _ _ _ (by decide),
        dictGet_dictDel_self]
  · rw [dictGet_dictSet_ne _ _ _ _ (by decide),
        dictGet_dictDel_self]
  · rw [dictGet_dictSet_self]

/-- A representative non-null gettxout reply dict. -/
def gettxoutSample : Dict :=
  [("bestblock", JVal.str "00ff"), ("confirmations", JVal.num 1),
   ("value", JVal.num (1 / 2000)),
   ("scriptPubKey", JVal.obj [("hex", JVal.str "51")])]

/-- Witness for C7 at a concrete reply dict. -/
theorem gettxout_null_and_decode_witness :
    dictGet gettxoutSample "value" = some (JVal.num (1 / 2000)) ∧
    dictGet gettxoutSample "scriptPubKey" =
      some (JVal.obj [("hex", JVal.str "51")]) ∧
    dictGet [("hex", JVal.str "51")] "hex" = some (JVal.str "51") ∧
    dictGet gettxoutSample "bestblock" = some (JVal.str "00ff") ∧
    ∃ out, gettxoutProcess (some gettxoutSample) = Except.ok out ∧
      dictGet out "txout" =
        some (JVal.txout (ratTrunc ((1 / 2000 : ℚ) * (COIN : ℚ)))
          (hexToBytes "51")) ∧
      dictGet out "value" = none ∧
      dictGet out "scriptPubKey" = none ∧
      dictGet out "bestblock" = some (JVal.bytes (lxM "00ff")) :=
  ⟨rfl, rfl, rfl, rfl,
   gettxout_null_and_decode.2 gettxoutSample (1 / 2000)
     [("hex", JVal.str "51")] "51" "00ff" rfl rfl rfl rfl⟩

/-- A representative verbose getrawtransaction wire result. -/
def getrawtxSample : Dict :=
  [("hex", JVal.str "0100"), ("txid", JVal.str "ab"), ("version", JVal.num 1),
   ("locktime", JVal.num 0), ("vin", JVal.arr []), ("vout", JVal.arr []),
   ("blockhash", JVal.str "00ff"), ("confirmations", JVal.num 7)]

/-- C8 (code bug): on a verbose wire result the returned mapping does carry
the decoded transaction under tx, drops txid, version, locktime, vin and
vout, and byte-reverses blockhash, but it also still carries the raw hex
payload, a field the decoder can derive, because rpc.py line 498 merely
reads the hex entry instead of deleting it. -/
theorem getrawtransaction_verbose_keeps_hex :
    ∃ out, getrawtransactionVerbose getrawtxSample = Except.ok out ∧
      dictGet out "tx" = some (JVal.tx (hexToBytes "0100")) ∧
      dictGet out "txid" = none ∧
      dictGet out "version" = none ∧
      dictGet out "locktime" = none ∧
      dictGet out "vin" = none ∧
      dictGet out "vout" = none ∧
      dictGet out "blockhash" = some (JVal.bytes (lxM "00ff")) ∧
      dictGet out "hex" = some (JVal.str "0100") :=
  ⟨_, rfl, rfl, rfl, rfl, rfl, rfl, rfl, rfl, rfl⟩

/-- C9 counterexample: the round trip does not return the decimal 1.1, an
amount exactly representable in the coin subdivision, because the encode
direction rounds through binary64 and 1.1 is not a dyadic rational. -/
theorem amountRoundTrip_not_exact_at_elevenTenths :
    amountRoundTrip (11 / 10 : ℚ) ≠ (11 / 10 : ℚ) := by
  intro h
  exact elevenTenths_not_dyadic
    (h ▸ (show IsDyadic (amountRoundTrip (11 / 10 : ℚ)) from
      roundDouble_isDyadic _))

/-- C9 amended: the round trip always lands on a binary64 value, which is a
dyadic rational; it can therefore reproduce the original amount exactly only
when that amount is itself representable in binary floating point, which a
decimal like 1.1 is not. -/
theorem amountRoundTrip_is_binary64 (d : ℚ) : IsDyadic (amountRoundTrip d) :=
  roundDouble_isDyadic _
